import Mathlib

/-!
Verification of the question-acquisition pipeline and game logic of the
Millionaire-style quiz repository.

The definitions below are shallow embeddings of the functions in
`src/services/questionService.ts` and `src/components/QuizGame.tsx`:

* JavaScript numbers holding epoch milliseconds and counters are `Nat`.
* `localStorage` is the `Store` record; a stored numeric string is an
  `Option Nat` field, the JSON-serialised question cache is an
  `Option (List FormattedQuestion)` field (JSON round-trip is identity).
* Exceptions are `Except JsError`; a caught-and-swallowed `try`/`catch`
  block is modelled by a boolean oracle saying whether the body throws
  (`cacheReadThrows`, `throttleThrows`, `cacheWriteThrows`), in which case
  the handler result is produced.
* `Math.random()` draws are oracle functions supplied as arguments: each
  Fisher-Yates shuffle receives `js : Nat → Nat` and the draw for loop
  index `i` is `js i % (i + 1)`, which ranges over exactly the values
  `Math.floor(Math.random() * (i + 1))` can take.
* The DOM-based `decodeHTMLEntities` is an oracle `decode : String → String`.
* The several `Date.now()` reads inside one operation are modelled as a
  single instant `now` passed to the operation.
-/

namespace Quiz

open List

/-- `FormattedQuestion` from questionService.ts.  `difficulty` is kept as the
runtime string, exactly as JavaScript stores it. -/
structure FormattedQuestion where
  id : Nat
  question : String
  options : List String
  correctAnswer : Nat
  category : String
  difficulty : String
  value : Nat
deriving DecidableEq, Repr

/-- `ApiQuestion` from questionService.ts (a raw record of the remote API). -/
structure ApiQuestion where
  category : String
  type : String
  difficulty : String
  question : String
  correct_answer : String
  incorrect_answers : List String
deriving DecidableEq, Repr

/-- The body of an HTTP response: `{ response_code, results }`; `results` may
be absent (the source reads `response.data.results || []`). -/
structure AxiosData where
  response_code : Nat
  results : Option (List ApiQuestion)
deriving Repr

/-- An HTTP response as seen through axios: status code plus data. -/
structure AxiosResponse where
  status : Nat
  data : AxiosData
deriving Repr

/-- A thrown JavaScript error; `status` is `error.response.status` when the
error carries a response (axios errors), `none` otherwise. -/
structure JsError where
  status : Option Nat
deriving DecidableEq, Repr

/-- The five `localStorage` keys used by questionService.ts. -/
structure Store where
  cache : Option (List FormattedQuestion)
  cacheTimestamp : Option Nat
  cooldownUntil : Option Nat
  requestCount : Option Nat
  lastRequestTime : Option Nat
deriving Repr

/-- `difficultyValueMap` from questionService.ts; `none` models the
`undefined` obtained for a key outside the map. -/
def difficultyValueMap : String → Option (List Nat)
  | "easy" => some [100, 200, 300, 500, 1000]
  | "medium" => some [2000, 4000, 8000, 16000, 32000]
  | "hard" => some [64000, 125000, 250000, 500000, 1000000]
  | _ => none

/-- Swap the entries at positions `i` and `j` of a list (no-op when either
index is out of range), mirroring `[a[i], a[j]] = [a[j], a[i]]`. -/
def listSwap {α : Type} (l : List α) (i j : Nat) : List α :=
  match l[i]?, l[j]? with
  | some a, some b => (l.set i b).set j a
  | _, _ => l

/-- The Fisher-Yates loop of `shuffleArray`: performs the swaps for loop
indices `i = k, k-1, ..., 1`, drawing `j = js i % (i+1)`. -/
def fisherYatesAux {α : Type} (js : Nat → Nat) : Nat → List α → List α
  | 0, l => l
  | k + 1, l => fisherYatesAux js k (listSwap l (k + 1) (js (k + 1) % (k + 2)))

/-- `shuffleArray` from questionService.ts, with the `Math.random()` draws
supplied by the oracle `js`. -/
def shuffleArray {α : Type} (js : Nat → Nat) (l : List α) : List α :=
  fisherYatesAux js (l.length - 1) l

/-- Cache expiry: 24 hours in milliseconds. -/
def CACHE_EXPIRY : Nat := 24 * 60 * 60 * 1000

/-- Cooldown after a rate limit: 30 minutes in milliseconds. -/
def API_COOLDOWN : Nat := 30 * 60 * 1000

/-- `getCachedQuestions`: `none` when either key is missing, when the entry
is older than 24 hours, or when reading/parsing throws (`readThrows`). -/
def getCachedQuestions (readThrows : Bool) (now : Nat) (s : Store) :
    Option (List FormattedQuestion) :=
  if readThrows then none
  else
    match s.cache, s.cacheTimestamp with
    | some cachedData, some cacheTime =>
      if now - cacheTime > CACHE_EXPIRY then none else some cachedData
    | _, _ => none

/-- `cacheQuestions`: writes the set and the timestamp; a storage exception
(`writeThrows`) is swallowed and leaves the store unchanged. -/
def cacheQuestions (writeThrows : Bool) (now : Nat)
    (questions : List FormattedQuestion) (s : Store) : Store :=
  if writeThrows then s
  else { s with cache := some questions, cacheTimestamp := some now }

/-- `shouldUseApi`: cooldown check, rolling 5-minute window reset, and the
5-request cap; on an internal exception (`throttleThrows`) it defaults to
`true` without touching the store. Returns the decision and the new store. -/
def shouldUseApi (throttleThrows : Bool) (now : Nat) (s : Store) :
    Bool × Store :=
  if throttleThrows then (true, s)
  else if s.cooldownUntil.elim false (fun cooldownUntil => decide (cooldownUntil > now)) then
    (false, s)
  else
    let requestCount0 := s.requestCount.getD 0
    let requestCount :=
      match s.lastRequestTime with
      | some lastRequestTime =>
        if now - lastRequestTime > 5 * 60 * 1000 then 0 else requestCount0
      | none => requestCount0
    if requestCount ≥ 5 then (false, s)
    else (true, { s with requestCount := some (requestCount + 1),
                         lastRequestTime := some now })

/-- The request count `shouldUseApi` compares against the cap: the stored
count, reset to 0 when the gap since the last request exceeds 5 minutes. -/
def effectiveCount (now : Nat) (s : Store) : Nat :=
  match s.lastRequestTime with
  | some lastRequestTime =>
    if now - lastRequestTime > 5 * 60 * 1000 then 0 else s.requestCount.getD 0
  | none => s.requestCount.getD 0

/-- `handleRateLimiting`: stamps a cooldown deadline 30 minutes ahead. -/
def handleRateLimiting (now : Nat) (s : Store) : Store :=
  { s with cooldownUntil := some (now + API_COOLDOWN) }

/-- The body of the `allQuestions.map` callback in `fetchQuestions`:
validates the record, decodes, shuffles the four options, locates the
correct answer, and assigns the prize value from `difficultyValueMap` by
`index % 5`.  Errors model the `throw new Error(...)` for an invalid record
and the `TypeError` raised when `difficulty` is not a key of the map. -/
def normalizeRecord (decode : String → String) (js : Nat → Nat) (index : Nat)
    (q : ApiQuestion) : Except JsError FormattedQuestion :=
  if q.correct_answer = "" ∨ q.incorrect_answers.length ≠ 3 then
    .error { status := none }
  else
    let allOptions := decode q.correct_answer :: q.incorrect_answers.map decode
    let shuffledOptions := shuffleArray js allOptions
    let correctAnswerIndex :=
      shuffledOptions.findIdx (fun option => option == decode q.correct_answer)
    let difficultyIndex := index % 5
    match difficultyValueMap q.difficulty with
    | none => .error { status := none }
    | some values =>
      .ok { id := index + 1,
            question := decode q.question,
            options := shuffledOptions,
            correctAnswer := correctAnswerIndex,
            category := decode q.category,
            difficulty := q.difficulty,
            value := values.getD difficultyIndex 0 }

/-- The `allQuestions.map(...)` loop of `fetchQuestions`: normalizes the
records in order starting at `index`; the first invalid record aborts the
whole map with its thrown error.  `rand` supplies one shuffle oracle per
record index. -/
def formatQuestions (decode : String → String) (rand : Nat → Nat → Nat) :
    Nat → List ApiQuestion → Except JsError (List FormattedQuestion)
  | _, [] => .ok []
  | index, q :: rest =>
    match normalizeRecord decode (rand index) index q with
    | .error e => .error e
    | .ok fq =>
      match formatQuestions decode rand (index + 1) rest with
      | .error e => .error e
      | .ok fqs => .ok (fq :: fqs)

/-- `formattedQuestions.sort((a, b) => a.value - b.value)`: sort ascending
by prize value. -/
def sortByValue (l : List FormattedQuestion) : List FormattedQuestion :=
  l.mergeSort (fun a b => a.value ≤ b.value)
/-- Fallback corpus entries 1-10. -/
def corpusChunk00 : List FormattedQuestion := [
  { id := 1, question := "Which planet is known as the Red Planet?", options := ["Venus", "Mars", "Jupiter", "Saturn"], correctAnswer := 1, category := "Science", difficulty := "easy", value := 100 },
  { id := 2, question := "Which country is known as the Land of the Rising Sun?", options := ["China", "Korea", "Japan", "Vietnam"], correctAnswer := 2, category := "Geography", difficulty := "easy", value := 200 },
  { id := 3, question := "Who painted the Mona Lisa?", options := ["Vincent Van Gogh", "Pablo Picasso", "Leonardo da Vinci", "Michelangelo"], correctAnswer := 2, category := "Art", difficulty := "easy", value := 300 },
  { id := 4, question := "What is the capital of Australia?", options := ["Sydney", "Melbourne", "Perth", "Canberra"], correctAnswer := 3, category := "Geography", difficulty := "easy", value := 500 },
  { id := 5, question := "Which element has the chemical symbol \x27O\x27?", options := ["Gold", "Oxygen", "Osmium", "Oganesson"], correctAnswer := 1, category := "Science", difficulty := "easy", value := 1000 },
  { id := 6, question := "Who wrote \x27Romeo and Juliet\x27?", options := ["Charles Dickens", "William Shakespeare", "Jane Austen", "Mark Twain"], correctAnswer := 1, category := "Literature", difficulty := "medium", value := 2000 },
  { id := 7, question := "Which famous scientist developed the theory of relativity?", options := ["Isaac Newton", "Niels Bohr", "Albert Einstein", "Marie Curie"], correctAnswer := 2, category := "Science", difficulty := "medium", value := 4000 },
  { id := 8, question := "What is the largest ocean on Earth?", options := ["Atlantic Ocean", "Indian Ocean", "Arctic Ocean", "Pacific Ocean"], correctAnswer := 3, category := "Geography", difficulty := "medium", value := 8000 },
  { id := 9, question := "Which of these is NOT a primary color in the RGB color model?", options := ["Red", "Green", "Blue", "Yellow"], correctAnswer := 3, category := "Art", difficulty := "medium", value := 16000 },
  { id := 10, question := "Which planet has the most moons?", options := ["Jupiter", "Saturn", "Uranus", "Neptune"], correctAnswer := 1, category := "Science", difficulty := "hard", value := 32000 }
]

/-- Fallback corpus entries 11-20. -/
def corpusChunk01 : List FormattedQuestion := [
  { id := 11, question := "In what year did the Berlin Wall fall?", options := ["1987", "1989", "1991", "1993"], correctAnswer := 1, category := "History", difficulty := "hard", value := 64000 },
  { id := 12, question := "Which of these programming languages was developed first?", options := ["Python", "Java", "C++", "FORTRAN"], correctAnswer := 3, category := "Technology", difficulty := "hard", value := 125000 },
  { id := 13, question := "Which composer was deaf when he completed his Ninth Symphony?", options := ["Wolfgang Amadeus Mozart", "Ludwig van Beethoven", "Johann Sebastian Bach", "Franz Schubert"], correctAnswer := 1, category := "Music", difficulty := "hard", value := 250000 },
  { id := 14, question := "The Aztec Empire was located in what is now which country?", options := ["Peru", "Colombia", "Mexico", "Brazil"], correctAnswer := 2, category := "History", difficulty := "hard", value := 500000 },
  { id := 15, question := "What is the world\x27s most expensive spice by weight?", options := ["Vanilla", "Cardamom", "Saffron", "Cinnamon"], correctAnswer := 2, category := "Food", difficulty := "hard", value := 1000000 },
  { id := 16, question := "Which vitamin is produced by the skin when exposed to sunlight?", options := ["Vitamin A", "Vitamin C", "Vitamin D", "Vitamin K"], correctAnswer := 2, category := "Science", difficulty := "easy", value := 100 },
  { id := 17, question := "What is the capital of France?", options := ["London", "Berlin", "Paris", "Madrid"], correctAnswer := 2, category := "Geography", difficulty := "easy", value := 200 },
  { id := 18, question := "Which famous physicist developed the theory of general relativity?", options := ["Isaac Newton", "Albert Einstein", "Stephen Hawking", "Niels Bohr"], correctAnswer := 1, category := "Science", difficulty := "easy", value := 300 },
  { id := 19, question := "What is the largest mammal in the world?", options := ["Elephant", "Blue Whale", "Giraffe", "Hippopotamus"], correctAnswer := 1, category := "Animals", difficulty := "easy", value := 500 },
  { id := 20, question := "Who wrote \x27Harry Potter\x27?", options := ["J.R.R. Tolkien", "J.K. Rowling", "Stephen King", "George R.R. Martin"], correctAnswer := 1, category := "Literature", difficulty := "easy", value := 1000 }
]

/-- Fallback corpus entries 21-30. -/
def corpusChunk02 : List FormattedQuestion := [
  { id := 21, question := "Which planet is closest to the Sun?", options := ["Venus", "Earth", "Mars", "Mercury"], correctAnswer := 3, category := "Astronomy", difficulty := "easy", value := 100 },
  { id := 22, question := "What is the capital of Japan?", options := ["Beijing", "Seoul", "Tokyo", "Bangkok"], correctAnswer := 2, category := "Geography", difficulty := "easy", value := 200 },
  { id := 23, question := "Who painted \x27Starry Night\x27?", options := ["Claude Monet", "Pablo Picasso", "Vincent van Gogh", "Leonardo da Vinci"], correctAnswer := 2, category := "Art", difficulty := "easy", value := 300 },
  { id := 24, question := "What is the chemical symbol for gold?", options := ["Go", "Gd", "Au", "Ag"], correctAnswer := 2, category := "Science", difficulty := "easy", value := 500 },
  { id := 25, question := "Which country is known for the Taj Mahal?", options := ["Egypt", "India", "Turkey", "China"], correctAnswer := 1, category := "Geography", difficulty := "easy", value := 1000 },
  { id := 26, question := "Which of these is NOT a programming language?", options := ["Java", "Python", "Cobra", "Photoshop"], correctAnswer := 3, category := "Technology", difficulty := "easy", value := 100 },
  { id := 27, question := "What is the capital of Brazil?", options := ["Rio de Janeiro", "São Paulo", "Brasília", "Salvador"], correctAnswer := 2, category := "Geography", difficulty := "easy", value := 200 },
  { id := 28, question := "Which is the largest planet in our solar system?", options := ["Saturn", "Jupiter", "Neptune", "Uranus"], correctAnswer := 1, category := "Astronomy", difficulty := "easy", value := 300 },
  { id := 29, question := "Who was the first person to walk on the moon?", options := ["Buzz Aldrin", "Neil Armstrong", "Yuri Gagarin", "John Glenn"], correctAnswer := 1, category := "History", difficulty := "easy", value := 500 },
  { id := 30, question := "What is the longest river in the world?", options := ["Amazon", "Nile", "Mississippi", "Yangtze"], correctAnswer := 1, category := "Geography", difficulty := "easy", value := 1000 }
]

/-- Fallback corpus entries 31-40. -/
def corpusChunk03 : List FormattedQuestion := [
  { id := 31, question := "Who wrote \x27Pride and Prejudice\x27?", options := ["Jane Austen", "Charlotte Brontë", "Emily Brontë", "Virginia Woolf"], correctAnswer := 0, category := "Literature", difficulty := "easy", value := 100 },
  { id := 32, question := "What is the main language spoken in Brazil?", options := ["Spanish", "Portuguese", "English", "French"], correctAnswer := 1, category := "Geography", difficulty := "easy", value := 200 },
  { id := 33, question := "Which instrument has 88 keys?", options := ["Guitar", "Violin", "Piano", "Flute"], correctAnswer := 2, category := "Music", difficulty := "easy", value := 300 },
  { id := 34, question := "What is the chemical symbol for water?", options := ["O2", "CO2", "H2O", "NaCl"], correctAnswer := 2, category := "Science", difficulty := "easy", value := 500 },
  { id := 35, question := "Which country is known for the Great Barrier Reef?", options := ["Brazil", "Mexico", "Australia", "Indonesia"], correctAnswer := 2, category := "Geography", difficulty := "easy", value := 1000 },
  { id := 36, question := "Which of these animals is a marsupial?", options := ["Elephant", "Kangaroo", "Lion", "Penguin"], correctAnswer := 1, category := "Animals", difficulty := "easy", value := 100 },
  { id := 37, question := "What is the capital of Italy?", options := ["Venice", "Milan", "Rome", "Naples"], correctAnswer := 2, category := "Geography", difficulty := "easy", value := 200 },
  { id := 38, question := "Who painted the ceiling of the Sistine Chapel?", options := ["Leonardo da Vinci", "Michelangelo", "Raphael", "Donatello"], correctAnswer := 1, category := "Art", difficulty := "easy", value := 300 },
  { id := 39, question := "What is the main ingredient in guacamole?", options := ["Avocado", "Tomato", "Lime", "Onion"], correctAnswer := 0, category := "Food", difficulty := "easy", value := 500 },
  { id := 40, question := "Which famous ship sank on its maiden voyage in 1912?", options := ["USS Enterprise", "Queen Mary", "RMS Titanic", "HMS Bounty"], correctAnswer := 2, category := "History", difficulty := "easy", value := 1000 }
]

/-- Fallback corpus entries 41-50. -/
def corpusChunk04 : List FormattedQuestion := [
  { id := 41, question := "Which sports car company has a prancing horse as its logo?", options := ["Lamborghini", "Ferrari", "Porsche", "Maserati"], correctAnswer := 1, category := "Automotive", difficulty := "easy", value := 100 },
  { id := 42, question := "What is the largest desert in the world?", options := ["Sahara", "Gobi", "Arabian", "Antarctic"], correctAnswer := 3, category := "Geography", difficulty := "easy", value := 200 },
  { id := 43, question := "Who is known as the \x27King of Pop\x27?", options := ["Elvis Presley", "Michael Jackson", "Justin Bieber", "Bruno Mars"], correctAnswer := 1, category := "Music", difficulty := "easy", value := 300 },
  { id := 44, question := "What is the boiling point of water in Celsius?", options := ["90°C", "100°C", "110°C", "212°C"], correctAnswer := 1, category := "Science", difficulty := "easy", value := 500 },
  { id := 45, question := "Which planet is known as the \x27Morning Star\x27?", options := ["Mars", "Venus", "Jupiter", "Mercury"], correctAnswer := 1, category := "Astronomy", difficulty := "easy", value := 1000 },
  { id := 46, question := "Which country was the first to reach the South Pole?", options := ["United States", "Russia", "Norway", "United Kingdom"], correctAnswer := 2, category := "History", difficulty := "medium", value := 2000 },
  { id := 47, question := "What is the largest internal organ in the human body?", options := ["Lungs", "Liver", "Brain", "Heart"], correctAnswer := 1, category := "Biology", difficulty := "medium", value := 4000 },
  { id := 48, question := "Who discovered penicillin?", options := ["Marie Curie", "Louis Pasteur", "Alexander Fleming", "Jonas Salk"], correctAnswer := 2, category := "Science", difficulty := "medium", value := 8000 },
  { id := 49, question := "Which element has the chemical symbol \x27Fe\x27?", options := ["Iron", "Fluorine", "Francium", "Fermium"], correctAnswer := 0, category := "Chemistry", difficulty := "medium", value := 16000 },
  { id := 50, question := "In which year did World War I begin?", options := ["1914", "1916", "1918", "1920"], correctAnswer := 0, category := "History", difficulty := "medium", value := 32000 }
]

/-- Fallback corpus entries 51-60. -/
def corpusChunk05 : List FormattedQuestion := [
  { id := 51, question := "Which mountain range separates Europe from Asia?", options := ["Alps", "Himalayas", "Andes", "Urals"], correctAnswer := 3, category := "Geography", difficulty := "medium", value := 2000 },
  { id := 52, question := "Who wrote \x271984\x27?", options := ["Aldous Huxley", "George Orwell", "Ray Bradbury", "H.G. Wells"], correctAnswer := 1, category := "Literature", difficulty := "medium", value := 4000 },
  { id := 53, question := "What is the currency of Japan?", options := ["Yuan", "Won", "Ringgit", "Yen"], correctAnswer := 3, category := "Geography", difficulty := "medium", value := 8000 },
  { id := 54, question := "Which element is a noble gas?", options := ["Chlorine", "Nitrogen", "Argon", "Carbon"], correctAnswer := 2, category := "Chemistry", difficulty := "medium", value := 16000 },
  { id := 55, question := "What is the capital of South Africa?", options := ["Johannesburg", "Cape Town", "Pretoria", "Durban"], correctAnswer := 2, category := "Geography", difficulty := "medium", value := 32000 },
  { id := 56, question := "Who composed \x27The Four Seasons\x27?", options := ["Johann Sebastian Bach", "Wolfgang Amadeus Mozart", "Ludwig van Beethoven", "Antonio Vivaldi"], correctAnswer := 3, category := "Music", difficulty := "medium", value := 2000 },
  { id := 57, question := "Which of these countries is not a member of the European Union?", options := ["Sweden", "Switzerland", "Spain", "Portugal"], correctAnswer := 1, category := "Politics", difficulty := "medium", value := 4000 },
  { id := 58, question := "What is the hardest natural substance on Earth?", options := ["Platinum", "Titanium", "Diamond", "Quartz"], correctAnswer := 2, category := "Science", difficulty := "medium", value := 8000 },
  { id := 59, question := "Which ancient wonder was located in Alexandria?", options := ["Hanging Gardens", "Colossus", "Lighthouse", "Temple of Artemis"], correctAnswer := 2, category := "History", difficulty := "medium", value := 16000 },
  { id := 60, question := "What is the name of the longest river in Africa?", options := ["Congo", "Niger", "Zambezi", "Nile"], correctAnswer := 3, category := "Geography", difficulty := "medium", value := 32000 }
]

/-- Fallback corpus entries 61-70. -/
def corpusChunk06 : List FormattedQuestion := [
  { id := 61, question := "Which of these is not a type of cloud?", options := ["Cumulus", "Stratus", "Nimbus", "Nebulus"], correctAnswer := 3, category := "Meteorology", difficulty := "medium", value := 2000 },
  { id := 62, question := "Who directed the movie \x27Jaws\x27?", options := ["George Lucas", "Steven Spielberg", "Francis Ford Coppola", "Martin Scorsese"], correctAnswer := 1, category := "Entertainment", difficulty := "medium", value := 4000 },
  { id := 63, question := "What is the largest species of shark?", options := ["Great White Shark", "Tiger Shark", "Hammerhead Shark", "Whale Shark"], correctAnswer := 3, category := "Animals", difficulty := "medium", value := 8000 },
  { id := 64, question := "Which famous emperor built the Colosseum in Rome?", options := ["Augustus", "Nero", "Vespasian", "Constantine"], correctAnswer := 2, category := "History", difficulty := "medium", value := 16000 },
  { id := 65, question := "What does HTTP stand for?", options := ["HyperText Transfer Protocol", "High Tech Transfer Protocol", "Hyper Transfer Text Protocol", "Host Transfer Technology Protocol"], correctAnswer := 0, category := "Technology", difficulty := "medium", value := 32000 },
  { id := 66, question := "Which country was not part of the original Axis powers in World War II?", options := ["Germany", "Italy", "Spain", "Japan"], correctAnswer := 2, category := "History", difficulty := "medium", value := 2000 },
  { id := 67, question := "What is the smallest bone in the human body?", options := ["Stapes", "Femur", "Radius", "Phalanges"], correctAnswer := 0, category := "Biology", difficulty := "medium", value := 4000 },
  { id := 68, question := "Which planet has the Great Red Spot?", options := ["Mars", "Venus", "Jupiter", "Saturn"], correctAnswer := 2, category := "Astronomy", difficulty := "medium", value := 8000 },
  { id := 69, question := "Who wrote \x27The Canterbury Tales\x27?", options := ["Geoffrey Chaucer", "William Langland", "John Gower", "Thomas Malory"], correctAnswer := 0, category := "Literature", difficulty := "medium", value := 16000 },
  { id := 70, question := "Which mountain is the tallest in the world when measured from base to peak?", options := ["Mount Everest", "K2", "Mauna Kea", "Mount Kilimanjaro"], correctAnswer := 2, category := "Geography", difficulty := "medium", value := 32000 }
]

/-- Fallback corpus entries 71-80. -/
def corpusChunk07 : List FormattedQuestion := [
  { id := 71, question := "Which of these scientists did NOT contribute to the development of quantum mechanics?", options := ["Niels Bohr", "Werner Heisenberg", "Stephen Hawking", "Max Planck"], correctAnswer := 2, category := "Science", difficulty := "hard", value := 64000 },
  { id := 72, question := "What is the only state in the United States that grows coffee commercially?", options := ["California", "Florida", "Hawaii", "Louisiana"], correctAnswer := 2, category := "Geography", difficulty := "hard", value := 125000 },
  { id := 73, question := "Who was the first female winner of a Nobel Prize?", options := ["Marie Curie", "Irène Joliot-Curie", "Dorothy Hodgkin", "Rosalind Franklin"], correctAnswer := 0, category := "History", difficulty := "hard", value := 250000 },
  { id := 74, question := "Which is the only Shakespeare play that mentions America?", options := ["The Tempest", "Hamlet", "Macbeth", "A Midsummer Night\x27s Dream"], correctAnswer := 0, category := "Literature", difficulty := "hard", value := 500000 },
  { id := 75, question := "What is the rarest blood type in humans?", options := ["AB negative", "B negative", "O negative", "A negative"], correctAnswer := 0, category := "Biology", difficulty := "hard", value := 1000000 },
  { id := 76, question := "Who was the first person to prove that the Earth revolves around the Sun?", options := ["Galileo Galilei", "Nicolaus Copernicus", "Johannes Kepler", "Isaac Newton"], correctAnswer := 1, category := "Science", difficulty := "hard", value := 64000 },
  { id := 77, question := "Which of these is NOT one of the Seven Wonders of the Ancient World?", options := ["Great Pyramid of Giza", "Hanging Gardens of Babylon", "Colosseum of Rome", "Temple of Artemis at Ephesus"], correctAnswer := 2, category := "History", difficulty := "hard", value := 125000 },
  { id := 78, question := "What was the first country to grant women the right to vote?", options := ["United States", "United Kingdom", "New Zealand", "France"], correctAnswer := 2, category := "History", difficulty := "hard", value := 250000 },
  { id := 79, question := "Which composer was completely deaf when he wrote his Ninth Symphony?", options := ["Wolfgang Amadeus Mozart", "Ludwig van Beethoven", "Johann Sebastian Bach", "Frédéric Chopin"], correctAnswer := 1, category := "Music", difficulty := "hard", value := 500000 },
  { id := 80, question := "What is the smallest country in the world by land area?", options := ["Monaco", "Vatican City", "San Marino", "Liechtenstein"], correctAnswer := 1, category := "Geography", difficulty := "hard", value := 1000000 }
]

/-- Fallback corpus entries 81-90. -/
def corpusChunk08 : List FormattedQuestion := [
  { id := 81, question := "Who was the only U.S. President to resign from office?", options := ["Richard Nixon", "Lyndon B. Johnson", "Gerald Ford", "Jimmy Carter"], correctAnswer := 0, category := "Politics", difficulty := "hard", value := 64000 },
  { id := 82, question := "Which element was named after the Greek word for \x27green\x27?", options := ["Oxygen", "Hydrogen", "Chlorine", "Neon"], correctAnswer := 2, category := "Chemistry", difficulty := "hard", value := 125000 },
  { id := 83, question := "What is the only sea without any coastlines?", options := ["Dead Sea", "Red Sea", "Sargasso Sea", "Caspian Sea"], correctAnswer := 2, category := "Geography", difficulty := "hard", value := 250000 },
  { id := 84, question := "Which ancient civilization invented the concept of zero?", options := ["Egyptians", "Greeks", "Mayans", "Indians"], correctAnswer := 3, category := "History", difficulty := "hard", value := 500000 },
  { id := 85, question := "What is the longest English word without a true vowel (a, e, i, o, u)?", options := ["Rhythm", "Crypt", "Sylph", "Lymph"], correctAnswer := 0, category := "Language", difficulty := "hard", value := 1000000 },
  { id := 86, question := "Which chemical element has the highest melting point?", options := ["Tungsten", "Carbon", "Titanium", "Osmium"], correctAnswer := 0, category := "Chemistry", difficulty := "hard", value := 64000 },
  { id := 87, question := "Who was the first woman to win a Nobel Prize in two different fields?", options := ["Irène Joliot-Curie", "Marie Curie", "Rita Levi-Montalcini", "Dorothy Hodgkin"], correctAnswer := 1, category := "Science", difficulty := "hard", value := 125000 },
  { id := 88, question := "What is the oldest continuously inhabited city in the world?", options := ["Athens, Greece", "Jerusalem, Israel", "Damascus, Syria", "Varanasi, India"], correctAnswer := 2, category := "Geography", difficulty := "hard", value := 250000 },
  { id := 89, question := "Who is regarded as the father of modern computer science?", options := ["Charles Babbage", "Alan Turing", "John von Neumann", "Tim Berners-Lee"], correctAnswer := 1, category := "Technology", difficulty := "hard", value := 500000 },
  { id := 90, question := "What is the closest star to our solar system?", options := ["Betelgeuse", "Alpha Centauri", "Proxima Centauri", "Sirius"], correctAnswer := 2, category := "Astronomy", difficulty := "hard", value := 1000000 }
]

/-- Fallback corpus entries 91-100. -/
def corpusChunk09 : List FormattedQuestion := [
  { id := 91, question := "Which of these languages is NOT Indo-European?", options := ["Danish", "Persian", "Hungarian", "Greek"], correctAnswer := 2, category := "Language", difficulty := "hard", value := 64000 },
  { id := 92, question := "Who proved that DNA has a double helix structure?", options := ["Watson and Crick", "Franklin and Wilkins", "Mendel and Morgan", "Sanger and Kornberg"], correctAnswer := 0, category := "Science", difficulty := "hard", value := 125000 },
  { id := 93, question := "What was the first successful vaccine developed?", options := ["Polio", "Tuberculosis", "Rabies", "Smallpox"], correctAnswer := 3, category := "Medicine", difficulty := "hard", value := 250000 },
  { id := 94, question := "Which famous poet wrote \x27Do not go gentle into that good night\x27?", options := ["T.S. Eliot", "Dylan Thomas", "W.H. Auden", "Sylvia Plath"], correctAnswer := 1, category := "Literature", difficulty := "hard", value := 500000 },
  { id := 95, question := "What is the most abundant gas in Earth\x27s atmosphere?", options := ["Oxygen", "Carbon Dioxide", "Nitrogen", "Argon"], correctAnswer := 2, category := "Science", difficulty := "hard", value := 1000000 },
  { id := 96, question := "Who discovered the neutron?", options := ["Ernest Rutherford", "Marie Curie", "James Chadwick", "Niels Bohr"], correctAnswer := 2, category := "Physics", difficulty := "hard", value := 64000 },
  { id := 97, question := "Which movie won the first Academy Award for Best Picture?", options := ["Wings", "Gone with the Wind", "Casablanca", "All Quiet on the Western Front"], correctAnswer := 0, category := "Entertainment", difficulty := "hard", value := 125000 },
  { id := 98, question := "Which chess piece can only move diagonally?", options := ["Knight", "Rook", "Bishop", "Queen"], correctAnswer := 2, category := "Games", difficulty := "hard", value := 250000 },
  { id := 99, question := "In which decade was the Internet first made available to the public?", options := ["1960s", "1970s", "1980s", "1990s"], correctAnswer := 2, category := "Technology", difficulty := "hard", value := 500000 },
  { id := 100, question := "Which ancient civilization built Machu Picchu?", options := ["Maya", "Inca", "Aztec", "Olmec"], correctAnswer := 1, category := "History", difficulty := "hard", value := 1000000 }
]

/-- The fixed 100-item fallback corpus (`getAllFallbackQuestions` in
questionService.ts), split into chunks of ten to keep elaboration fast. -/
def getAllFallbackQuestions : List FormattedQuestion :=
  corpusChunk00 ++ corpusChunk01 ++ corpusChunk02 ++ corpusChunk03 ++
  corpusChunk04 ++ corpusChunk05 ++ corpusChunk06 ++ corpusChunk07 ++
  corpusChunk08 ++ corpusChunk09

/-- `getRandomFallbackQuestions`: buckets the corpus by difficulty, draws
`floor(amount * 0.33)` easy, `floor(amount * 0.33)` medium and the rest hard
via shuffle-and-take, then sorts ascending by value.  The three
`Math.random()`-driven shuffles receive the oracles `rEasy`, `rMedium`,
`rHard`. -/
def getRandomFallbackQuestions (rEasy rMedium rHard : Nat → Nat)
    (amount : Nat) : List FormattedQuestion :=
  let allFallbackQuestions := getAllFallbackQuestions
  let easyQuestions := allFallbackQuestions.filter (fun q => q.difficulty == "easy")
  let mediumQuestions := allFallbackQuestions.filter (fun q => q.difficulty == "medium")
  let hardQuestions := allFallbackQuestions.filter (fun q => q.difficulty == "hard")
  let easyCount := amount * 33 / 100
  let mediumCount := amount * 33 / 100
  let hardCount := amount - easyCount - mediumCount
  let selectedEasy := (shuffleArray rEasy easyQuestions).take easyCount
  let selectedMedium := (shuffleArray rMedium mediumQuestions).take mediumCount
  let selectedHard := (shuffleArray rHard hardQuestions).take hardCount
  let selectedQuestions := selectedEasy ++ selectedMedium ++ selectedHard
  sortByValue selectedQuestions

/-- The environment of one `fetchQuestions` call: the clock, the HTML-entity
decoder, the storage-exception oracles, the outcome of the three parallel
HTTP GETs (`.error` models a thrown axios error), and the random sources. -/
structure Env where
  now : Nat
  decode : String → String
  cacheReadThrows : Bool
  throttleThrows : Bool
  cacheWriteThrows : Bool
  network : Except JsError (AxiosResponse × AxiosResponse × AxiosResponse)
  normRand : Nat → Nat → Nat
  easyRand : Nat → Nat
  mediumRand : Nat → Nat
  hardRand : Nat → Nat

/-- The fallback sample drawn inside `fetchQuestions`. -/
def fallbackSample (env : Env) (amount : Nat) : List FormattedQuestion :=
  getRandomFallbackQuestions env.easyRand env.mediumRand env.hardRand amount

/-- The `try` block of `fetchQuestions` (lines 144-222): awaits the three
batches, handles 429 statuses, response codes, batch sizes, normalizes,
sorts and caches.  An `.error` result is an exception escaping the `try`
block into the `catch`. -/
def fetchTryBody (env : Env) (amount : Nat) (s : Store) :
    Except JsError (List FormattedQuestion × Store) :=
  match env.network with
  | .error e => .error e
  | .ok (easyResponse, mediumResponse, hardResponse) =>
    if easyResponse.status == 429 || mediumResponse.status == 429 ||
        hardResponse.status == 429 then
      .ok (fallbackSample env amount, handleRateLimiting env.now s)
    else if easyResponse.data.response_code != 0 ||
        mediumResponse.data.response_code != 0 ||
        hardResponse.data.response_code != 0 then
      .ok (fallbackSample env amount, s)
    else
      let easyQuestions := easyResponse.data.results.getD []
      let mediumQuestions := mediumResponse.data.results.getD []
      let hardQuestions := hardResponse.data.results.getD []
      if easyQuestions.length != 5 || mediumQuestions.length != 5 ||
          hardQuestions.length != 5 then
        .ok (fallbackSample env amount, s)
      else
        let allQuestions := easyQuestions ++ mediumQuestions ++ hardQuestions
        match formatQuestions env.decode env.normRand 0 allQuestions with
        | .error e => .error e
        | .ok formattedQuestions =>
          let sortedQuestions := sortByValue formattedQuestions
          .ok (sortedQuestions,
               cacheQuestions env.cacheWriteThrows env.now sortedQuestions s)

/-- `fetchQuestions` (the Provider operation `acquire`): cache lookup, then
throttle decision, then the guarded live fetch; the `catch` turns any
escaped exception into a fallback sample, entering cooldown when the error
carries a 429 response status.  The result pairs the returned question list
with the final store. -/
def fetchQuestionsE (env : Env) (amount : Nat) (s : Store) :
    Except JsError (List FormattedQuestion × Store) :=
  match getCachedQuestions env.cacheReadThrows env.now s with
  | some cachedQuestions => .ok (cachedQuestions, s)
  | none =>
    let su := shouldUseApi env.throttleThrows env.now s
    if !su.1 then .ok (fallbackSample env amount, su.2)
    else
      match fetchTryBody env amount su.2 with
      | .ok result => .ok result
      | .error e =>
        let s2 := if e.status == some 429 then handleRateLimiting env.now su.2
                  else su.2
        .ok (fallbackSample env amount, s2)

/-- `moneyLadder` from src/data/questions.ts. -/
def moneyLadder : List Nat :=
  [100, 200, 300, 500, 1000, 2000, 4000, 8000, 16000, 32000, 64000, 125000,
   250000, 500000, 1000000]

/-- `milestones` from src/data/questions.ts: question numbers that are safe
havens (keep the money if you lose after these). -/
def milestones : List Nat := [5, 10, 15]

/-- The descending `for` loop with `break` in `confirmAnswer` that computes
`finalMoney` on a wrong answer: `fuel` is the loop counter `i + 1`, so the
loop visits `i = fuel - 1, ..., 0` and stops at the first milestone with
`currentQuestionIndex >= milestones[i] - 1`. -/
def finalMoneyLoop (currentQuestionIndex : Nat) : Nat → Nat
  | 0 => 0
  | i + 1 =>
    if currentQuestionIndex ≥ milestones.getD i 0 - 1 then
      moneyLadder.getD (milestones.getD i 0 - 1) 0
    else finalMoneyLoop currentQuestionIndex i

/-- The payout computed by `confirmAnswer` when the answer at
`currentQuestionIndex` (0-based) is wrong. -/
def finalMoneyOnWrong (currentQuestionIndex : Nat) : Nat :=
  finalMoneyLoop currentQuestionIndex milestones.length

/-- Modelled from the spec: "Final payout on a wrong answer equals the value
at the highest completed milestone question index (milestone set: after
questions 5, 10, 15)".  With the 0-based `currentQuestionIndex`, the
questions completed (answered correctly) before the wrong answer are
questions `1 .. currentQuestionIndex`, so milestone `m` is completed exactly
when `currentQuestionIndex ≥ m`; the payout is `moneyLadder[m - 1]` for the
highest completed milestone, and 0 when none is completed. -/
def specPayoutLoop (currentQuestionIndex : Nat) : Nat → Nat
  | 0 => 0
  | i + 1 =>
    if currentQuestionIndex ≥ milestones.getD i 0 then
      moneyLadder.getD (milestones.getD i 0 - 1) 0
    else specPayoutLoop currentQuestionIndex i

/-- Modelled from the spec: payout on a wrong answer at the 0-based
`currentQuestionIndex`. -/
def specPayoutOnWrong (currentQuestionIndex : Nat) : Nat :=
  specPayoutLoop currentQuestionIndex milestones.length

/-- `earnedMoney` set by `confirmAnswer` on a correct answer:
`moneyLadder[currentQuestionIndex]`. -/
def earnedOnCorrect (currentQuestionIndex : Nat) : Nat :=
  moneyLadder.getD currentQuestionIndex 0

/-- The lifeline flags of QuizGame. -/
structure LifelineState where
  fifty : Bool
  audience : Bool
  phone : Bool
deriving Repr

/-- The slice of QuizGame state read and written by `useFiftyFifty`. -/
structure GameState where
  lifelines : LifelineState
  isAnswerConfirmed : Bool
  eliminatedOptions : List Nat
deriving Repr

/-- `useFiftyFifty` from QuizGame.tsx.  `correctAnswer` is
`currentQuestion.correctAnswer`; `shuffleWrong` is the reordering produced
by `wrongOptions.sort(() => Math.random() - 0.5)` (an arbitrary permutation
oracle, constrained in the theorems). -/
def useFiftyFifty (shuffleWrong : List Nat → List Nat) (correctAnswer : Nat)
    (s : GameState) : GameState :=
  if !s.lifelines.fifty || s.isAnswerConfirmed then s
  else
    let wrongOptions := [0, 1, 2, 3].filter (fun idx => idx != correctAnswer)
    let toEliminate := (shuffleWrong wrongOptions).take 2
    { s with eliminatedOptions := toEliminate,
             lifelines := { s.lifelines with fifty := false } }

/-- An empty localStorage: all five keys absent. -/
def emptyStore : Store := ⟨none, none, none, none, none⟩

/-- A concrete raw easy record used by witnesses. -/
def witApiEasy : ApiQuestion :=
  ⟨"Science", "multiple", "easy", "Q", "A", ["B", "C", "D"]⟩

/-- A concrete raw medium record used by witnesses. -/
def witApiMedium : ApiQuestion :=
  ⟨"Science", "multiple", "medium", "Q", "A", ["B", "C", "D"]⟩

/-- A concrete raw hard record used by witnesses. -/
def witApiHard : ApiQuestion :=
  ⟨"Science", "multiple", "hard", "Q", "A", ["B", "C", "D"]⟩

/-- A successful 5-record batch response for witnesses. -/
def witBatch (q : ApiQuestion) : AxiosResponse :=
  ⟨200, ⟨0, some (List.replicate 5 q)⟩⟩

/-- A concrete environment: clock 0, identity decoder, storage healthy,
network answering three well-formed batches, all random draws 0. -/
def witEnvA : Env :=
  ⟨0, fun t => t, false, false, false,
   .ok (witBatch witApiEasy, witBatch witApiMedium, witBatch witApiHard),
   fun _ _ => 0, fun _ => 0, fun _ => 0, fun _ => 0⟩

/-- The three raw batches of `witEnvA`, concatenated. -/
def witRawA : List ApiQuestion :=
  List.replicate 5 witApiEasy ++ List.replicate 5 witApiMedium ++
    List.replicate 5 witApiHard

/-- The normalization output on `witRawA` (extracted for the witness). -/
def witFqA : List FormattedQuestion :=
  (formatQuestions (fun t => t) (fun _ _ => 0) 0 witRawA).toOption.getD []

/-- A concrete raw record and its normalization for the C3 witness. -/
def witFq3 : FormattedQuestion :=
  ⟨1, "Q", ["B", "C", "D", "A"], 3, "Science", "easy", 100⟩

/-- A throttle store after `n` requests, all stamped at time 0. -/
def witThrottleStore (n : Nat) : Store := ⟨none, none, none, some n, some 0⟩

/-- A one-question cached set for the cache witnesses. -/
def witCacheList : List FormattedQuestion :=
  [⟨1, "Q", ["A", "B", "C", "D"], 0, "Science", "easy", 100⟩]

/-- A store holding `witCacheList` written at time 0. -/
def witCachedStore : Store := ⟨some witCacheList, some 0, none, none, none⟩

/-- A fresh game state: all lifelines available, nothing confirmed. -/
def witGameState : GameState := ⟨⟨true, true, true⟩, false, []⟩

/-! ## Helper lemmas -/

theorem cons_set_perm {α : Type} {l : List α} {m : Nat} {b x : α}
    (h : l[m]? = some b) : List.Perm (b :: l.set m x) (x :: l) := by
  induction l generalizing m with
  | nil => simp at h
  | cons y t ih =>
    cases m with
    | zero =>
      simp at h
      subst h
      simpa using List.Perm.swap x y t
    | succ m =>
      simp at h
      calc b :: (y :: t).set (m + 1) x
          = b :: y :: t.set m x := by simp
        _ ~ y :: b :: t.set m x := List.Perm.swap y b _
        _ ~ y :: x :: t := (ih h).cons y
        _ ~ x :: y :: t := List.Perm.swap x y t

theorem set_set_perm {α : Type} {l : List α} {i j : Nat} {a b : α}
    (hi : l[i]? = some a) (hj : l[j]? = some b) :
    List.Perm ((l.set i b).set j a) l := by
  induction l generalizing i j with
  | nil => simp at hi
  | cons x t ih =>
    cases i with
    | zero =>
      simp at hi
      subst hi
      cases j with
      | zero => simp at hj; subst hj; simp
      | succ j =>
        simp at hj
        simpa using cons_set_perm hj
    | succ i =>
      simp at hi
      cases j with
      | zero =>
        simp at hj
        subst hj
        simpa using cons_set_perm hi
      | succ j =>
        simp only [List.set_cons_succ]
        simp at hj
        exact (ih hi hj).cons x

theorem listSwap_perm {α : Type} (l : List α) (i j : Nat) :
    List.Perm (listSwap l i j) l := by
  unfold listSwap
  cases hi : l[i]? with
  | none => exact List.Perm.refl l
  | some a =>
    cases hj : l[j]? with
    | none => exact List.Perm.refl l
    | some b => exact set_set_perm hi hj

theorem fisherYatesAux_perm {α : Type} (js : Nat → Nat) (k : Nat) (l : List α) :
    List.Perm (fisherYatesAux js k l) l := by
  induction k generalizing l with
  | zero => exact List.Perm.refl l
  | succ k ih =>
    exact (ih _).trans (listSwap_perm l (k + 1) (js (k + 1) % (k + 2)))

theorem shuffleArray_perm {α : Type} (js : Nat → Nat) (l : List α) :
    List.Perm (shuffleArray js l) l :=
  fisherYatesAux_perm js (l.length - 1) l

theorem shuffleArray_length {α : Type} (js : Nat → Nat) (l : List α) :
    (shuffleArray js l).length = l.length :=
  (shuffleArray_perm js l).length_eq

theorem sortByValue_perm (l : List FormattedQuestion) :
    List.Perm (sortByValue l) l :=
  List.mergeSort_perm l _

theorem sortByValue_length (l : List FormattedQuestion) :
    (sortByValue l).length = l.length :=
  (sortByValue_perm l).length_eq

theorem sortByValue_pairwise (l : List FormattedQuestion) :
    List.Pairwise (fun a b => a.value ≤ b.value) (sortByValue l) := by
  have h : (List.mergeSort l
      (fun a b => decide (a.value ≤ b.value))).Pairwise
      (fun a b => decide (a.value ≤ b.value) = true) :=
    List.sorted_mergeSort
      (fun a b c hab hbc => by
        simp only [decide_eq_true_eq] at *
        omega)
      (fun a b => by
        simp only [Bool.or_eq_true, decide_eq_true_eq]
        omega) l
  exact h.imp (fun hab => by simpa using hab)

theorem formatQuestions_ok_length (decode : String → String)
    (rand : Nat → Nat → Nat) :
    ∀ (i : Nat) (qs : List ApiQuestion) (fqs : List FormattedQuestion),
      formatQuestions decode rand i qs = .ok fqs → fqs.length = qs.length := by
  intro i qs
  induction qs generalizing i with
  | nil => intro fqs h; simp [formatQuestions] at h; simp [← h]
  | cons q rest ih =>
    intro fqs h
    simp only [formatQuestions] at h
    cases hn : normalizeRecord decode (rand i) i q with
    | error e => rw [hn] at h; exact absurd h (by simp)
    | ok fq =>
      rw [hn] at h
      cases hr : formatQuestions decode rand (i + 1) rest with
      | error e => rw [hr] at h; exact absurd h (by simp)
      | ok fqs2 =>
        rw [hr] at h
        simp at h
        rw [← h]
        simp [ih (i + 1) fqs2 hr]

theorem filter_difficulty_perm (l : List FormattedQuestion)
    (h : ∀ q ∈ l, q.difficulty = "easy" ∨ q.difficulty = "medium" ∨
      q.difficulty = "hard") :
    List.Perm
      (l.filter (fun q => q.difficulty == "easy") ++
       (l.filter (fun q => q.difficulty == "medium") ++
        l.filter (fun q => q.difficulty == "hard"))) l := by
  induction l with
  | nil => simp
  | cons x t ih =>
    have hx := h x (by simp)
    have ht : ∀ q ∈ t, q.difficulty = "easy" ∨ q.difficulty = "medium" ∨
        q.difficulty = "hard" := fun q hq => h q (by simp [hq])
    have iht := ih ht
    rcases hx with hx | hx | hx
    · rw [List.filter_cons_of_pos (by rw [hx]; decide),
          List.filter_cons_of_neg (by rw [hx]; decide),
          List.filter_cons_of_neg (by rw [hx]; decide)]
      exact iht.cons x
    · rw [List.filter_cons_of_neg (by rw [hx]; decide),
          List.filter_cons_of_pos (by rw [hx]; decide),
          List.filter_cons_of_neg (by rw [hx]; decide)]
      exact List.Perm.trans List.perm_middle (iht.cons x)
    · rw [List.filter_cons_of_neg (by rw [hx]; decide),
          List.filter_cons_of_neg (by rw [hx]; decide),
          List.filter_cons_of_pos (by rw [hx]; decide)]
      refine List.Perm.trans (List.Perm.append_left _ List.perm_middle) ?_
      exact List.Perm.trans List.perm_middle (iht.cons x)

theorem subperm_append_pair {α : Type} {l1 l2 r1 r2 : List α}
    (h1 : List.Subperm l1 l2) (h2 : List.Subperm r1 r2) :
    List.Subperm (l1 ++ r1) (l2 ++ r2) := by
  obtain ⟨u, hu, hsu⟩ := h1
  obtain ⟨v, hv, hsv⟩ := h2
  exact ⟨u ++ v, hu.append hv, hsu.append hsv⟩

theorem take_shuffle_subperm {α : Type} (js : Nat → Nat) (n : Nat)
    (l : List α) : List.Subperm ((shuffleArray js l).take n) l :=
  (List.take_sublist n _).subperm.trans (shuffleArray_perm js l).subperm

theorem nodup_map_of_subperm {α β : Type} (f : α → β) {l1 l2 : List α}
    (h : List.Subperm l1 l2) (hn : (l2.map f).Nodup) : (l1.map f).Nodup := by
  obtain ⟨u, hu, hsu⟩ := h
  exact (hu.map f).nodup ((hsu.map f).nodup hn)

set_option maxRecDepth 10000

theorem sortedSample_spec (sel corpus : List FormattedQuestion)
    (hsub : List.Subperm sel corpus)
    (hids : (corpus.map (fun q => q.id)).Nodup) :
    (∀ q ∈ sortByValue sel, q ∈ corpus) ∧
    ((sortByValue sel).map (fun q => q.id)).Nodup ∧
    List.Pairwise (fun a b => a.value ≤ b.value) (sortByValue sel) ∧
    (sortByValue sel).length = sel.length := by
  refine ⟨?_, ?_, sortByValue_pairwise sel, sortByValue_length sel⟩
  · intro q hq
    exact hsub.subset ((sortByValue_perm sel).mem_iff.1 hq)
  · exact ((sortByValue_perm sel).symm.map (fun q => q.id)).nodup
      (nodup_map_of_subperm (fun q => q.id) hsub hids)

theorem fallback_sample_spec (rE rM rH : Nat → Nat) :
    (getRandomFallbackQuestions rE rM rH 15).length = 15 ∧
    List.Pairwise (fun a b => a.value ≤ b.value)
      (getRandomFallbackQuestions rE rM rH 15) ∧
    (∀ q ∈ getRandomFallbackQuestions rE rM rH 15,
      q ∈ getAllFallbackQuestions) ∧
    ((getRandomFallbackQuestions rE rM rH 15).map (fun q => q.id)).Nodup ∧
    getAllFallbackQuestions.length = 100 := by
  have hunfold : getRandomFallbackQuestions rE rM rH 15 =
      sortByValue
        ((shuffleArray rE (getAllFallbackQuestions.filter
            (fun q => q.difficulty == "easy"))).take 4 ++
         ((shuffleArray rM (getAllFallbackQuestions.filter
            (fun q => q.difficulty == "medium"))).take 4 ++
          (shuffleArray rH (getAllFallbackQuestions.filter
            (fun q => q.difficulty == "hard"))).take 7)) := by
    simp only [getRandomFallbackQuestions]
    norm_num
  have hE : (getAllFallbackQuestions.filter
      (fun q => q.difficulty == "easy")).length = 35 := by decide
  have hM : (getAllFallbackQuestions.filter
      (fun q => q.difficulty == "medium")).length = 29 := by decide
  have hH : (getAllFallbackQuestions.filter
      (fun q => q.difficulty == "hard")).length = 36 := by decide
  have hdiff : ∀ q ∈ getAllFallbackQuestions, q.difficulty = "easy" ∨
      q.difficulty = "medium" ∨ q.difficulty = "hard" := by decide
  have hids : (getAllFallbackQuestions.map (fun q => q.id)).Nodup := by decide
  have hsub : List.Subperm
      ((shuffleArray rE (getAllFallbackQuestions.filter
          (fun q => q.difficulty == "easy"))).take 4 ++
       ((shuffleArray rM (getAllFallbackQuestions.filter
          (fun q => q.difficulty == "medium"))).take 4 ++
        (shuffleArray rH (getAllFallbackQuestions.filter
          (fun q => q.difficulty == "hard"))).take 7))
      getAllFallbackQuestions :=
    List.Subperm.trans
      (subperm_append_pair (take_shuffle_subperm rE 4 _)
        (subperm_append_pair (take_shuffle_subperm rM 4 _)
          (take_shuffle_subperm rH 7 _)))
      (filter_difficulty_perm getAllFallbackQuestions hdiff).subperm
  obtain ⟨hmem, hnd, hpw, hlen⟩ := sortedSample_spec _ _ hsub hids
  rw [hunfold]
  refine ⟨?_, hpw, hmem, hnd, by decide⟩
  rw [hlen]
  simp only [List.length_append, List.length_take, shuffleArray_length,
    hE, hM, hH]
  omega

theorem shouldUseApi_eq (now : Nat) (s : Store)
    (hcd : ∀ cd, s.cooldownUntil = some cd → cd ≤ now) :
    shouldUseApi false now s =
      if effectiveCount now s ≥ 5 then (false, s)
      else (true, { s with requestCount := some (effectiveCount now s + 1),
                           lastRequestTime := some now }) := by
  unfold shouldUseApi effectiveCount
  cases h : s.cooldownUntil with
  | none => simp
  | some cd =>
    simp only [Bool.false_eq_true, if_false, Option.elim]
    rw [if_neg (by simpa using Nat.not_lt.2 (hcd cd h))]

theorem effectiveCount_in_window (now lt : Nat) (s : Store)
    (hl : s.lastRequestTime = some lt) (hg : now - lt ≤ 5 * 60 * 1000) :
    effectiveCount now s = s.requestCount.getD 0 := by
  unfold effectiveCount
  rw [hl]
  simp [Nat.not_lt.2 hg]

theorem effectiveCount_reset (now lt : Nat) (s : Store)
    (hl : s.lastRequestTime = some lt) (hg : now - lt > 5 * 60 * 1000) :
    effectiveCount now s = 0 := by
  unfold effectiveCount
  rw [hl]
  simp [hg]

theorem shouldUseApi_true_step (now : Nat) (s : Store) {s2 : Store}
    (hcd : ∀ cd, s.cooldownUntil = some cd → cd ≤ now)
    (he : shouldUseApi false now s = (true, s2)) :
    s2.cooldownUntil = s.cooldownUntil ∧ s2.lastRequestTime = some now ∧
    s2.requestCount = some (effectiveCount now s + 1) ∧
    effectiveCount now s < 5 := by
  rw [shouldUseApi_eq now s hcd] at he
  by_cases h : effectiveCount now s ≥ 5
  · rw [if_pos h] at he
    exact absurd (congrArg Prod.fst he) (by simp)
  · rw [if_neg h] at he
    have h2 := congrArg Prod.snd he
    simp only at h2
    rw [← h2]
    exact ⟨rfl, rfl, rfl, by omega⟩

/-- C5: with no active cooldown, five consecutive `shouldUseApi` calls that
return true within a rolling 5-minute window (each call at most 5 minutes
after the previous one) force a sixth call inside the window to return
false; and once more than 5 minutes pass since the last request, the
rolling count resets so the next call returns true again. -/
theorem throttle_window_spec :
    (∀ (s s1 s2 s3 s4 s5 : Store) (t1 t2 t3 t4 t5 t6 : Nat),
      (∀ cd, s.cooldownUntil = some cd → cd ≤ t1) →
      t1 ≤ t2 → t2 - t1 ≤ 5 * 60 * 1000 →
      t2 ≤ t3 → t3 - t2 ≤ 5 * 60 * 1000 →
      t3 ≤ t4 → t4 - t3 ≤ 5 * 60 * 1000 →
      t4 ≤ t5 → t5 - t4 ≤ 5 * 60 * 1000 →
      t5 ≤ t6 → t6 - t5 ≤ 5 * 60 * 1000 →
      shouldUseApi false t1 s = (true, s1) →
      shouldUseApi false t2 s1 = (true, s2) →
      shouldUseApi false t3 s2 = (true, s3) →
      shouldUseApi false t4 s3 = (true, s4) →
      shouldUseApi false t5 s4 = (true, s5) →
      (shouldUseApi false t6 s5).1 = false) ∧
    (∀ (s : Store) (lt t : Nat),
      (∀ cd, s.cooldownUntil = some cd → cd ≤ t) →
      s.lastRequestTime = some lt → t - lt > 5 * 60 * 1000 →
      (shouldUseApi false t s).1 = true) := by
  constructor
  · intro s s1 s2 s3 s4 s5 t1 t2 t3 t4 t5 t6 hcd h12 g12 h23 g23 h34 g34
      h45 g45 h56 g56 e1 e2 e3 e4 e5
    obtain ⟨cp1, lr1, rc1, lt1⟩ := shouldUseApi_true_step t1 s hcd e1
    have hcd2 : ∀ cd, s1.cooldownUntil = some cd → cd ≤ t2 := fun cd hc =>
      le_trans (hcd cd (cp1 ▸ hc)) h12
    obtain ⟨cp2, lr2, rc2, lt2⟩ := shouldUseApi_true_step t2 s1 hcd2 e2
    have ec2 : effectiveCount t2 s1 = effectiveCount t1 s + 1 := by
      rw [effectiveCount_in_window t2 t1 s1 lr1 g12, rc1]; rfl
    have hcd3 : ∀ cd, s2.cooldownUntil = some cd → cd ≤ t3 := fun cd hc =>
      le_trans (hcd2 cd (cp2 ▸ hc)) h23
    obtain ⟨cp3, lr3, rc3, lt3⟩ := shouldUseApi_true_step t3 s2 hcd3 e3
    have ec3 : effectiveCount t3 s2 = effectiveCount t2 s1 + 1 := by
      rw [effectiveCount_in_window t3 t2 s2 lr2 g23, rc2]; rfl
    have hcd4 : ∀ cd, s3.cooldownUntil = some cd → cd ≤ t4 := fun cd hc =>
      le_trans (hcd3 cd (cp3 ▸ hc)) h34
    obtain ⟨cp4, lr4, rc4, lt4⟩ := shouldUseApi_true_step t4 s3 hcd4 e4
    have ec4 : effectiveCount t4 s3 = effectiveCount t3 s2 + 1 := by
      rw [effectiveCount_in_window t4 t3 s3 lr3 g34, rc3]; rfl
    have hcd5 : ∀ cd, s4.cooldownUntil = some cd → cd ≤ t5 := fun cd hc =>
      le_trans (hcd4 cd (cp4 ▸ hc)) h45
    obtain ⟨cp5, lr5, rc5, lt5⟩ := shouldUseApi_true_step t5 s4 hcd5 e5
    have ec5 : effectiveCount t5 s4 = effectiveCount t4 s3 + 1 := by
      rw [effectiveCount_in_window t5 t4 s4 lr4 g45, rc4]; rfl
    have hcd6 : ∀ cd, s5.cooldownUntil = some cd → cd ≤ t6 := fun cd hc =>
      le_trans (hcd5 cd (cp5 ▸ hc)) h56
    have ec6 : effectiveCount t6 s5 = effectiveCount t5 s4 + 1 := by
      rw [effectiveCount_in_window t6 t5 s5 lr5 g56, rc5]; rfl
    rw [shouldUseApi_eq t6 s5 hcd6, if_pos (by omega)]
  · intro s lt t hcd hl hg
    rw [shouldUseApi_eq t s hcd,
        if_neg (by rw [effectiveCount_reset t lt s hl hg]; omega)]

/-- C6: after `handleRateLimiting` stamps the deadline `now + 30min`, every
`shouldUseApi` call strictly before the deadline returns false, and a call
can return true only once the clock has reached the deadline. -/
theorem cooldown_spec (s : Store) (now : Nat) :
    (∀ t, t < now + API_COOLDOWN →
      (shouldUseApi false t (handleRateLimiting now s)).1 = false) ∧
    (∀ t, (shouldUseApi false t (handleRateLimiting now s)).1 = true →
      now + API_COOLDOWN ≤ t) := by
  have h1 : ∀ t, t < now + API_COOLDOWN →
      (shouldUseApi false t (handleRateLimiting now s)).1 = false := by
    intro t ht
    unfold shouldUseApi handleRateLimiting
    simp [ht]
  refine ⟨h1, fun t ht => ?_⟩
  by_contra hlt
  push_neg at hlt
  rw [h1 t hlt] at ht
  exact absurd ht (by decide)

/-- C7: immediately after `cacheQuestions` writes a set at time `t`,
`getCachedQuestions` at time `t` returns exactly that set; once the clock
exceeds 24 hours past the write, it returns `none`. -/
theorem cache_roundtrip_spec (s : Store) (qs : List FormattedQuestion)
    (t : Nat) :
    getCachedQuestions false t (cacheQuestions false t qs s) = some qs ∧
    ∀ u, t + CACHE_EXPIRY < u →
      getCachedQuestions false u (cacheQuestions false t qs s) = none := by
  constructor
  · unfold getCachedQuestions cacheQuestions
    simp [CACHE_EXPIRY]
  · intro u hu
    unfold getCachedQuestions cacheQuestions
    simp only [CACHE_EXPIRY] at hu ⊢
    simp only [Bool.false_eq_true, if_false]
    rw [if_pos (by omega)]

/-- C8: on a cache hit, `fetchQuestionsE` returns the cached set verbatim
with the store untouched (so the throttle state is unchanged), for every
network behaviour and random source: the cache check precedes both the
throttle check and the fetch. -/
theorem cache_hit_frame (env : Env) (amount : Nat) (s : Store)
    (qs : List FormattedQuestion)
    (hhit : getCachedQuestions env.cacheReadThrows env.now s = some qs) :
    fetchQuestionsE env amount s = .ok (qs, s) := by
  unfold fetchQuestionsE
  rw [hhit]

theorem fetchQuestionsE_isOk (env : Env) (amount : Nat) (s : Store) :
    (fetchQuestionsE env amount s).isOk = true := by
  unfold fetchQuestionsE
  split
  · rfl
  · dsimp only
    split
    · rfl
    · split
      · rfl
      · rfl

/-- C1: `fetchQuestions` always resolves with a question list and never
propagates an error, whatever the cache store, throttle store and remote
source do (network errors, parse failures, rate limits, invalid records,
thrown normalization errors). -/
theorem fetchQuestions_total (env : Env) (amount : Nat) (s : Store) :
    ∃ qs s2, fetchQuestionsE env amount s = .ok (qs, s2) := by
  cases h : fetchQuestionsE env amount s with
  | ok r => exact ⟨r.1, r.2, rfl⟩
  | error e =>
    have hok := fetchQuestionsE_isOk env amount s
    rw [h] at hok
    simp [Except.isOk, Except.toBool] at hok

theorem normalizeRecord_eq (decode : String → String) (js : Nat → Nat)
    (index : Nat) (q : ApiQuestion) (values : List Nat)
    (hne : q.correct_answer ≠ "") (hlen : q.incorrect_answers.length = 3)
    (hd : difficultyValueMap q.difficulty = some values) :
    normalizeRecord decode js index q =
      .ok { id := index + 1,
            question := decode q.question,
            options := shuffleArray js
              (decode q.correct_answer :: q.incorrect_answers.map decode),
            correctAnswer := (shuffleArray js
              (decode q.correct_answer :: q.incorrect_answers.map decode)).findIdx
              (fun option => option == decode q.correct_answer),
            category := decode q.category,
            difficulty := q.difficulty,
            value := values.getD (index % 5) 0 } := by
  unfold normalizeRecord
  rw [if_neg (by simp [hne, hlen]), hd]

theorem findIdx_first_match (xs : List String) (target : String)
    (hmem : target ∈ xs) :
    xs.findIdx (fun option => option == target) < xs.length ∧
    xs[xs.findIdx (fun option => option == target)]? = some target ∧
    ∀ k, k < xs.findIdx (fun option => option == target) →
      xs[k]? ≠ some target := by
  have hlt : xs.findIdx (fun option => option == target) < xs.length :=
    List.findIdx_lt_length_of_exists ⟨target, hmem, by simp⟩
  refine ⟨hlt, ?_, ?_⟩
  · rw [List.getElem?_eq_getElem hlt]
    have hp := @List.findIdx_getElem String (fun option => option == target)
      xs hlt
    simpa using hp
  · intro k hk
    have hkl : k < xs.length := lt_trans hk hlt
    rw [List.getElem?_eq_getElem hkl]
    have hf := List.not_of_lt_findIdx hk
    simp at hf ⊢
    exact hf

/-- C3: a successfully normalized record with non-empty correct answer and
exactly 3 incorrect answers yields 4 options forming a permutation of the
decoded correct answer together with the 3 decoded incorrect answers;
`correctAnswer` is a valid index pointing at an option equal to the decoded
correct-answer text, and it is the first such position. -/
theorem normalizeRecord_spec (decode : String → String) (js : Nat → Nat)
    (index : Nat) (q : ApiQuestion) (fq : FormattedQuestion)
    (hne : q.correct_answer ≠ "")
    (hlen : q.incorrect_answers.length = 3)
    (hok : normalizeRecord decode js index q = .ok fq) :
    fq.options.length = 4 ∧
    List.Perm fq.options
      (decode q.correct_answer :: q.incorrect_answers.map decode) ∧
    fq.correctAnswer < 4 ∧
    fq.options[fq.correctAnswer]? = some (decode q.correct_answer) ∧
    (∀ k, k < fq.correctAnswer →
      fq.options[k]? ≠ some (decode q.correct_answer)) := by
  cases hd : difficultyValueMap q.difficulty with
  | none =>
    unfold normalizeRecord at hok
    rw [if_neg (by simp [hne, hlen]), hd] at hok
    simp at hok
  | some values =>
    rw [normalizeRecord_eq decode js index q values hne hlen hd] at hok
    injection hok with h
    subst h
    have hperm := shuffleArray_perm js
      (decode q.correct_answer :: q.incorrect_answers.map decode)
    have hmem : decode q.correct_answer ∈ shuffleArray js
        (decode q.correct_answer :: q.incorrect_answers.map decode) :=
      hperm.mem_iff.2 (List.mem_cons_self _ _)
    obtain ⟨hlt, hat, hfirst⟩ := findIdx_first_match _ _ hmem
    have hlen4 : (shuffleArray js
        (decode q.correct_answer :: q.incorrect_answers.map decode)).length
        = 4 := by
      rw [hperm.length_eq]
      simp [hlen]
    exact ⟨hlen4, hperm, hlen4 ▸ hlt, hat, hfirst⟩

/-- C2: with the cache empty, the throttle allowing the fetch, and the live
fetch returning three well-formed batches of 5 records each (no 429, zero
response codes) that all normalize successfully, `fetchQuestionsE` returns
the 15 normalized questions sorted ascending by value and writes the sorted
set to the cache before returning. -/
theorem fetchQuestions_scenarioA (env : Env) (s : Store)
    (respE respM respH : AxiosResponse) (eqs mqs hqs : List ApiQuestion)
    (fq : List FormattedQuestion)
    (hcache : s.cache = none)
    (hthrottle : (shouldUseApi env.throttleThrows env.now s).1 = true)
    (hnet : env.network = .ok (respE, respM, respH))
    (hst1 : respE.status ≠ 429) (hst2 : respM.status ≠ 429)
    (hst3 : respH.status ≠ 429)
    (hrc1 : respE.data.response_code = 0) (hrc2 : respM.data.response_code = 0)
    (hrc3 : respH.data.response_code = 0)
    (hre : respE.data.results = some eqs) (hrm : respM.data.results = some mqs)
    (hrh : respH.data.results = some hqs)
    (hle : eqs.length = 5) (hlm : mqs.length = 5) (hlh : hqs.length = 5)
    (hfmt : formatQuestions env.decode env.normRand 0 (eqs ++ mqs ++ hqs)
      = .ok fq)
    (hwrite : env.cacheWriteThrows = false) :
    fetchQuestionsE env 15 s =
      .ok (sortByValue fq,
        cacheQuestions false env.now (sortByValue fq)
          (shouldUseApi env.throttleThrows env.now s).2) ∧
    (cacheQuestions false env.now (sortByValue fq)
      (shouldUseApi env.throttleThrows env.now s).2).cache
        = some (sortByValue fq) ∧
    (cacheQuestions false env.now (sortByValue fq)
      (shouldUseApi env.throttleThrows env.now s).2).cacheTimestamp
        = some env.now ∧
    (sortByValue fq).length = 15 ∧
    List.Pairwise (fun a b => a.value ≤ b.value) (sortByValue fq) := by
  have hread : getCachedQuestions env.cacheReadThrows env.now s = none := by
    unfold getCachedQuestions
    rw [hcache]
    cases env.cacheReadThrows <;> simp
  have htry : fetchTryBody env 15 ((shouldUseApi env.throttleThrows env.now s).2)
      = .ok (sortByValue fq,
          cacheQuestions false env.now (sortByValue fq)
            (shouldUseApi env.throttleThrows env.now s).2) := by
    unfold fetchTryBody
    rw [hnet, hwrite]
    simp [hst1, hst2, hst3, hrc1, hrc2, hrc3, hre, hrm, hrh, hle, hlm, hlh]
    rw [← List.append_assoc, hfmt]
  have hpair : shouldUseApi env.throttleThrows env.now s =
      (true, (shouldUseApi env.throttleThrows env.now s).2) := by
    rw [← hthrottle]
  refine ⟨?_, by simp [cacheQuestions], by simp [cacheQuestions], ?_,
    sortByValue_pairwise fq⟩
  · unfold fetchQuestionsE
    rw [hread, hpair]
    dsimp only
    rw [htry]
    rfl
  · rw [sortByValue_length,
      formatQuestions_ok_length env.decode env.normRand 0 _ _ hfmt]
    simp [hle, hlm, hlh]

/-- C9 (code bug): `confirmAnswer` computes the wrong-answer payout with the
condition `currentQuestionIndex >= milestones[i] - 1`, so a wrong answer ON
a milestone question already pays that milestone.  At index 14 (question 15
answered wrong) the code pays the full 1,000,000 — the same as winning —
although the highest milestone completed beforehand is question 10 whose
ladder value is 32,000 (the spec-modelled payout).  Completing all 15
questions correctly does pay the top ladder value. -/
theorem finalMoney_milestone_bug :
    finalMoneyOnWrong 14 = 1000000 ∧ specPayoutOnWrong 14 = 32000 ∧
    finalMoneyOnWrong 4 = 1000 ∧ specPayoutOnWrong 4 = 0 ∧
    finalMoneyOnWrong 9 = 32000 ∧ specPayoutOnWrong 9 = 1000 ∧
    earnedOnCorrect 14 = 1000000 := by decide

/-- C10: when the 50:50 lifeline fires (still available, answer not yet
confirmed) and the random comparator sort yields some permutation of the
three wrong option indices, exactly two distinct option indices are
eliminated, both drawn from the three indices different from the correct
answer — the correct option is never eliminated. -/
theorem useFiftyFifty_spec (shuffleWrong : List Nat → List Nat)
    (correctAnswer : Nat) (s : GameState)
    (havail : s.lifelines.fifty = true)
    (hconf : s.isAnswerConfirmed = false)
    (hca : correctAnswer < 4)
    (hperm : List.Perm
      (shuffleWrong ([0, 1, 2, 3].filter (fun idx => idx != correctAnswer)))
      ([0, 1, 2, 3].filter (fun idx => idx != correctAnswer))) :
    (useFiftyFifty shuffleWrong correctAnswer s).eliminatedOptions.length = 2 ∧
    (useFiftyFifty shuffleWrong correctAnswer s).eliminatedOptions.Nodup ∧
    (∀ x ∈ (useFiftyFifty shuffleWrong correctAnswer s).eliminatedOptions,
      x ∈ [0, 1, 2, 3] ∧ x ≠ correctAnswer) := by
  have hunfold :
      (useFiftyFifty shuffleWrong correctAnswer s).eliminatedOptions =
      (shuffleWrong
        ([0, 1, 2, 3].filter (fun idx => idx != correctAnswer))).take 2 := by
    unfold useFiftyFifty
    rw [havail, hconf]
    rfl
  have hw3 : ([0, 1, 2, 3].filter
      (fun idx => idx != correctAnswer)).length = 3 := by
    interval_cases correctAnswer <;> decide
  have hwnodup : ([0, 1, 2, 3].filter
      (fun idx => idx != correctAnswer)).Nodup :=
    List.Nodup.filter _ (by decide)
  have hswnodup : (shuffleWrong
      ([0, 1, 2, 3].filter (fun idx => idx != correctAnswer))).Nodup :=
    hperm.nodup_iff.2 hwnodup
  rw [hunfold]
  refine ⟨?_, (List.take_sublist 2 _).nodup hswnodup, ?_⟩
  · rw [List.length_take, hperm.length_eq, hw3]
    decide
  · intro x hx
    have hxsw := (List.take_sublist 2 _).subset hx
    have hxw := hperm.mem_iff.1 hxsw
    have := List.mem_filter.1 hxw
    refine ⟨this.1, ?_⟩
    have hb := this.2
    simpa using hb

/-! ## Witnesses -/

theorem fetchQuestions_scenarioA_witness :
    fetchQuestionsE witEnvA 15 emptyStore =
      .ok (sortByValue witFqA,
        cacheQuestions false witEnvA.now (sortByValue witFqA)
          (shouldUseApi witEnvA.throttleThrows witEnvA.now emptyStore).2) ∧
    (cacheQuestions false witEnvA.now (sortByValue witFqA)
      (shouldUseApi witEnvA.throttleThrows witEnvA.now emptyStore).2).cache
        = some (sortByValue witFqA) ∧
    (cacheQuestions false witEnvA.now (sortByValue witFqA)
      (shouldUseApi witEnvA.throttleThrows witEnvA.now
        emptyStore).2).cacheTimestamp = some witEnvA.now ∧
    (sortByValue witFqA).length = 15 ∧
    List.Pairwise (fun a b => a.value ≤ b.value) (sortByValue witFqA) :=
  fetchQuestions_scenarioA witEnvA emptyStore (witBatch witApiEasy)
    (witBatch witApiMedium) (witBatch witApiHard)
    (List.replicate 5 witApiEasy) (List.replicate 5 witApiMedium)
    (List.replicate 5 witApiHard) witFqA
    rfl (by decide) rfl (by decide) (by decide) (by decide)
    rfl rfl rfl rfl rfl rfl (by decide) (by decide) (by decide) rfl rfl

theorem normalizeRecord_spec_witness :
    witFq3.options.length = 4 ∧
    List.Perm witFq3.options ["A", "B", "C", "D"] ∧
    witFq3.correctAnswer < 4 ∧
    witFq3.options[witFq3.correctAnswer]? = some "A" ∧
    (∀ k, k < witFq3.correctAnswer → witFq3.options[k]? ≠ some "A") :=
  normalizeRecord_spec (fun t => t) (fun _ => 0) 0 witApiEasy witFq3
    (by decide) (by decide) rfl

theorem throttle_window_spec_witness :
    (shouldUseApi false 0 (witThrottleStore 5)).1 = false ∧
    (shouldUseApi false 300001 (witThrottleStore 5)).1 = true :=
  ⟨throttle_window_spec.1 emptyStore (witThrottleStore 1) (witThrottleStore 2)
      (witThrottleStore 3) (witThrottleStore 4) (witThrottleStore 5)
      0 0 0 0 0 0 (fun cd h => Option.noConfusion h)
      (by decide) (by decide) (by decide) (by decide) (by decide) (by decide)
      (by decide) (by decide) (by decide) (by decide)
      rfl rfl rfl rfl rfl,
   throttle_window_spec.2 (witThrottleStore 5) 0 300001
      (fun cd h => Option.noConfusion h) rfl (by decide)⟩

theorem cooldown_spec_witness :
    0 < 0 + API_COOLDOWN ∧
    (shouldUseApi false 0 (handleRateLimiting 0 emptyStore)).1 = false :=
  ⟨by decide, (cooldown_spec emptyStore 0).1 0 (by decide)⟩

theorem cache_roundtrip_spec_witness :
    getCachedQuestions false 0
      (cacheQuestions false 0 witCacheList emptyStore) = some witCacheList ∧
    getCachedQuestions false 86400001
      (cacheQuestions false 0 witCacheList emptyStore) = none :=
  ⟨(cache_roundtrip_spec emptyStore witCacheList 0).1,
   (cache_roundtrip_spec emptyStore witCacheList 0).2 86400001 (by decide)⟩

theorem cache_hit_frame_witness :
    fetchQuestionsE witEnvA 15 witCachedStore =
      .ok (witCacheList, witCachedStore) :=
  cache_hit_frame witEnvA 15 witCachedStore witCacheList rfl

theorem useFiftyFifty_spec_witness :
    (useFiftyFifty (fun l => l) 0 witGameState).eliminatedOptions.length = 2 ∧
    (useFiftyFifty (fun l => l) 0 witGameState).eliminatedOptions.Nodup ∧
    (∀ x ∈ (useFiftyFifty (fun l => l) 0 witGameState).eliminatedOptions,
      x ∈ [0, 1, 2, 3] ∧ x ≠ 0) :=
  useFiftyFifty_spec (fun l => l) 0 witGameState rfl rfl (by decide)
    (List.Perm.refl _)
